import Mathlib

/-!
# Verification of the AKF validate / retry / commit / observe core

Shallow embedding of the core pipeline of the `ai-knowledge-filler`
repository: the error model (`akf/validation_error.py`), the error
normalizer (`akf/error_normalizer.py`), the retry controller
(`akf/retry_controller.py`), the commit gate (`akf/commit_gate.py`),
the date checks of the validation engine (`akf/validator.py`), and the
telemetry events (`akf/telemetry.py`).

Modelling conventions:
* Python strings are `String`; Python `repr` of a plain string is modelled
  as wrapping in single quotes (escaping of special characters inside the
  string is not modelled; no property below depends on it).
* The `expected` / `received` payloads of a validation error (typed `Any`
  in Python) are modelled by `PyVal`: either a string or a list of strings,
  which covers every constructor used by the embedded code.
* The SHA-256 fingerprint function of the retry controller is modelled as
  an arbitrary function parameter `hashFn : String → String`; the
  properties below depend only on it being a function.
* Wall-clock timing, UUID generation and timestamps are runtime inputs
  with no influence on control flow; they are modelled as fixed values.
* The filesystem is modelled as a partial map from paths to file contents.
-/

namespace AKF

/-- Single-quote character, used for Python-style `repr` rendering. -/
def sq : String := (Char.ofNat 39).toString

/-- Double-quote character, used for JSON-style list rendering. -/
def dq : String := (Char.ofNat 34).toString

/-- Value carried in the `expected` / `received` slots of a validation
error (`Any` in Python): every constructor in the embedded code passes
either a string or a list of strings. -/
inductive PyVal where
  | str (s : String)
  | list (xs : List String)
deriving DecidableEq, Repr

/-- Python `repr` of a `PyVal` (string escaping not modelled). -/
def PyVal.pyRepr : PyVal → String
  | .str s => sq ++ s ++ sq
  | .list xs => "[" ++ String.intercalate ", " (xs.map fun v => sq ++ v ++ sq) ++ "]"

/-- Python `str` of a `PyVal`. -/
def PyVal.pyStr : PyVal → String
  | .str s => s
  | v => v.pyRepr

/-- Error taxonomy from `akf/validation_error.py` (`class ErrorCode`). -/
inductive ErrorCode where
  | INVALID_ENUM
  | MISSING_FIELD
  | INVALID_DATE_FORMAT
  | TYPE_MISMATCH
  | SCHEMA_VIOLATION
  | TAXONOMY_VIOLATION
  | DATE_SEQUENCE
deriving DecidableEq, Repr

/-- The string value of each error code. -/
def ErrorCode.value : ErrorCode → String
  | .INVALID_ENUM => "E001_INVALID_ENUM"
  | .MISSING_FIELD => "E002_MISSING_FIELD"
  | .INVALID_DATE_FORMAT => "E003_INVALID_DATE_FORMAT"
  | .TYPE_MISMATCH => "E004_TYPE_MISMATCH"
  | .SCHEMA_VIOLATION => "E005_SCHEMA_VIOLATION"
  | .TAXONOMY_VIOLATION => "E006_TAXONOMY_VIOLATION"
  | .DATE_SEQUENCE => "E007_DATE_SEQUENCE"

/-- Severities from `akf/validation_error.py` (`class Severity`). -/
inductive Severity where
  | error
  | warning
deriving DecidableEq, Repr

/-- The string value of each severity. -/
def Severity.value : Severity → String
  | .error => "error"
  | .warning => "warning"

/-- `ValidationError` dataclass from `akf/validation_error.py`. -/
structure ValidationError where
  code : ErrorCode
  field : String
  expected : PyVal
  received : PyVal
  severity : Severity := .error
deriving DecidableEq, Repr

/-- Convenience constructor `missing_field`. -/
def missing_field (field : String) : ValidationError :=
  { code := .MISSING_FIELD, field := field, expected := .str "present",
    received := .str "absent", severity := .error }

/-- Convenience constructor `invalid_enum`. -/
def invalid_enum (field : String) (expected : List String) (received : PyVal) :
    ValidationError :=
  { code := .INVALID_ENUM, field := field, expected := .list expected,
    received := received, severity := .error }

/-- Convenience constructor `invalid_date_format`. -/
def invalid_date_format (field : String) (received : String) : ValidationError :=
  { code := .INVALID_DATE_FORMAT, field := field, expected := .str "YYYY-MM-DD",
    received := .str received, severity := .error }

/-- Convenience constructor `type_mismatch` (the Python version stores the
type names of the expected type and of the received value). -/
def type_mismatch (field : String) (expected received : String) : ValidationError :=
  { code := .TYPE_MISMATCH, field := field, expected := .str expected,
    received := .str received, severity := .error }

/-- Convenience constructor `schema_violation`. -/
def schema_violation (field : String) (expected received : PyVal) : ValidationError :=
  { code := .SCHEMA_VIOLATION, field := field, expected := expected,
    received := received, severity := .error }

/-- Convenience constructor `taxonomy_violation`. -/
def taxonomy_violation (field : String) (received : PyVal) (valid_domains : List String) :
    ValidationError :=
  { code := .TAXONOMY_VIOLATION, field := field, expected := .list valid_domains,
    received := received, severity := .error }

/-- Convenience constructor `date_sequence_violation` — the one constructor
that carries the dedicated `E007_DATE_SEQUENCE` code (note: the Python
version renders the bound with ASCII `<=`). -/
def date_sequence_violation (created updated : String) : ValidationError :=
  { code := .DATE_SEQUENCE, field := "created/updated",
    expected := .str ("created (" ++ created ++ ") <= updated (" ++ updated ++ ")"),
    received := .str ("created (" ++ created ++ ") > updated (" ++ updated ++ ")"),
    severity := .error }

/-- Predicate used throughout the code base for blocking errors
(`e.severity == Severity.ERROR`, or equivalently
`e.severity.value == "error"` in the retry controller). -/
def isBlocking (e : ValidationError) : Bool :=
  decide (e.severity = Severity.error)

/-- `RetryPayload` dataclass from `akf/error_normalizer.py`. -/
structure RetryPayload where
  instructions : List String
  error_count : Nat
  warning_count : Nat
  has_blocking_errors : Bool
deriving DecidableEq, Repr

/-- `_format_list`: JSON-style rendering for lists, `repr` otherwise. -/
def format_list : PyVal → String
  | .list xs => "[" ++ String.intercalate ", " (xs.map fun v => dq ++ v ++ dq) ++ "]"
  | v => v.pyRepr

/-- `_render_invalid_enum`. -/
def render_invalid_enum (e : ValidationError) : String :=
  "Field `" ++ e.field ++ "`: must be one of " ++ format_list e.expected ++ ".\n" ++
  "   You provided: " ++ e.received.pyRepr ++ ". Replace with a valid enum value.\n" ++
  "   Do not modify any other fields."

/-- Generic branch of `_render_missing_field`. -/
def render_missing_field_base (e : ValidationError) : String :=
  "Field `" ++ e.field ++ "`: required but missing.\n" ++
  "   Add this field with an appropriate value.\n" ++
  "   Do not modify any other fields."

/-- `_render_missing_field` (special-cases a list-valued `domain`). -/
def render_missing_field (e : ValidationError) : String :=
  match e.expected with
  | .list xs =>
    if e.field = "domain" then
      "Field `" ++ e.field ++ "`: required but missing.\n" ++
      "   Add this field. Valid values are: " ++ format_list (.list xs) ++ ".\n" ++
      "   Do not modify any other fields."
    else render_missing_field_base e
  | _ => render_missing_field_base e

/-- `_render_invalid_date_format`. -/
def render_invalid_date_format (e : ValidationError) : String :=
  "Field `" ++ e.field ++ "`: expected format YYYY-MM-DD.\n" ++
  "   You provided: " ++ e.received.pyRepr ++ ". Reformat the date only.\n" ++
  "   Do not modify any other fields."

/-- `_render_type_mismatch` (special-cases `tags`). -/
def render_type_mismatch (e : ValidationError) : String :=
  if e.field = "tags" then
    "Field `tags`: must be a YAML list (array), not a " ++ e.received.pyRepr ++ ".\n" ++
    "   Wrong:   tags: api\n" ++
    "   Correct: tags: [api, rest, design]\n" ++
    "   Minimum 3 items required. Do not modify any other fields."
  else
    "Field `" ++ e.field ++ "`: expected type " ++ e.expected.pyRepr ++ ", " ++
    "got " ++ e.received.pyRepr ++ ".\n" ++
    "   Correct the type only. Do not modify any other fields."

/-- `_render_schema_violation`. -/
def render_schema_violation (e : ValidationError) : String :=
  "Field `" ++ e.field ++ "`: schema violation.\n" ++
  "   Expected: " ++ e.expected.pyRepr ++ ". Received: " ++ e.received.pyRepr ++ ".\n" ++
  "   Do not modify any other fields."

/-- `_render_taxonomy_violation`. -/
def render_taxonomy_violation (e : ValidationError) : String :=
  "Field `" ++ e.field ++ "`: value must come from the approved taxonomy " ++
  format_list e.expected ++ ".\n" ++
  "   You provided: " ++ e.received.pyRepr ++ ". Replace with a taxonomy value.\n" ++
  "   Do not modify any other fields."

/-- `_render_date_sequence` (interpolates `str(e.received)`). -/
def render_date_sequence (e : ValidationError) : String :=
  "Field `created`/`updated`: the `created` date must not be after `updated`.\n" ++
  "   " ++ e.received.pyStr ++ "\n" ++
  "   Set `updated` to a date >= `created`. Do not modify any other fields."

/-- `_render_instruction`: per-code dispatch. The Python lookup table lists
all seven codes, so the `_render_generic` fallback is unreachable for this
closed enumeration. -/
def render_instruction (e : ValidationError) : String :=
  match e.code with
  | .INVALID_ENUM => render_invalid_enum e
  | .MISSING_FIELD => render_missing_field e
  | .INVALID_DATE_FORMAT => render_invalid_date_format e
  | .TYPE_MISMATCH => render_type_mismatch e
  | .SCHEMA_VIOLATION => render_schema_violation e
  | .TAXONOMY_VIOLATION => render_taxonomy_violation e
  | .DATE_SEQUENCE => render_date_sequence e

/-- `normalize_errors` from `akf/error_normalizer.py`. -/
def normalize_errors (errors : List ValidationError) : RetryPayload :=
  let blocking := errors.filter isBlocking
  let warnings := errors.filter fun e => decide (e.severity = Severity.warning)
  { instructions := blocking.map render_instruction,
    error_count := blocking.length,
    warning_count := warnings.length,
    has_blocking_errors := decide (0 < blocking.length) }

/-- `RetryPayload.to_prompt_text`. -/
def RetryPayload.to_prompt_text (p : RetryPayload) : String :=
  if ¬ p.has_blocking_errors then ""
  else
    String.intercalate "\n"
      ("VALIDATION ERRORS — fix the following fields before regenerating:\n" ::
        ((List.range p.instructions.length).zip p.instructions).map
          (fun x => toString (x.1 + 1) ++ ". " ++ x.2))

/-- JSON values, mirroring what Python's `json` module round-trips on the
telemetry wire: `int` and `num` are kept apart because Python preserves the
int/float distinction through `dumps`/`loads`. -/
inductive Json where
  | null
  | bool (b : Bool)
  | int (n : Int)
  | num (q : ℚ)
  | str (s : String)
  | arr (xs : List Json)
  | obj (members : List (String × Json))

/-- `ValidationErrorRecord` dataclass from `akf/telemetry.py`. The
`expected` / `received` payloads (`Any` in Python) are modelled at the
wire level as JSON values. -/
structure ValidationErrorRecord where
  code : String
  field : String
  expected : Json
  received : Json
  severity : String

/-- `GenerationAttemptEvent` dataclass from `akf/telemetry.py`.
`event_type` is `init=False` with a fixed default in Python, hence a
constant of `to_dict` rather than a field here; `event_id` and `timestamp`
are stamped at construction time (uuid4 / current UTC time) and modelled
as ordinary fields whose particular values no property depends on. -/
structure GenerationAttemptEvent where
  generation_id : String
  document_id : String
  schema_version : String
  attempt : Int
  max_attempts : Int
  is_final_attempt : Bool
  converged : Bool
  errors : List ValidationErrorRecord
  model : String
  temperature : ℚ
  top_p : ℚ
  duration_ms : Int
  event_id : String
  timestamp : String

/-- `GenerationSummaryEvent` dataclass from `akf/telemetry.py`. -/
structure GenerationSummaryEvent where
  generation_id : String
  document_id : String
  schema_version : String
  total_attempts : Int
  converged : Bool
  abort_reason : Option String
  rejected_candidates : List String
  final_domain : Option String
  model : String
  temperature : ℚ
  total_duration_ms : Int
  event_id : String
  timestamp : String

/-- JSON rendering of a nullable string field (what `json.dumps` does
with `Optional[str]`). -/
def jsonOfOptStr : Option String → Json
  | none => .null
  | some s => .str s

/-- `ValidationErrorRecord.to_dict`. -/
def ValidationErrorRecord.to_dict (r : ValidationErrorRecord) : Json :=
  .obj [("code", .str r.code),
        ("field", .str r.field),
        ("expected", r.expected),
        ("received", r.received),
        ("severity", .str r.severity)]

/-- `GenerationAttemptEvent.to_dict`, with the key order of the source. -/
def GenerationAttemptEvent.to_dict (e : GenerationAttemptEvent) : Json :=
  .obj [("event_type", .str "generation_attempt"),
        ("event_id", .str e.event_id),
        ("generation_id", .str e.generation_id),
        ("document_id", .str e.document_id),
        ("schema_version", .str e.schema_version),
        ("attempt", .int e.attempt),
        ("max_attempts", .int e.max_attempts),
        ("is_final_attempt", .bool e.is_final_attempt),
        ("converged", .bool e.converged),
        ("errors", .arr (e.errors.map ValidationErrorRecord.to_dict)),
        ("model", .str e.model),
        ("temperature", .num e.temperature),
        ("top_p", .num e.top_p),
        ("timestamp", .str e.timestamp),
        ("duration_ms", .int e.duration_ms)]

/-- `GenerationSummaryEvent.to_dict`, with the key order of the source. -/
def GenerationSummaryEvent.to_dict (e : GenerationSummaryEvent) : Json :=
  .obj [("event_type", .str "generation_summary"),
        ("event_id", .str e.event_id),
        ("generation_id", .str e.generation_id),
        ("document_id", .str e.document_id),
        ("schema_version", .str e.schema_version),
        ("total_attempts", .int e.total_attempts),
        ("converged", .bool e.converged),
        ("abort_reason", jsonOfOptStr e.abort_reason),
        ("rejected_candidates", .arr (e.rejected_candidates.map Json.str)),
        ("final_domain", jsonOfOptStr e.final_domain),
        ("model", .str e.model),
        ("temperature", .num e.temperature),
        ("timestamp", .str e.timestamp),
        ("total_duration_ms", .int e.total_duration_ms)]

/-- `_to_record`: convert a `ValidationError` to its telemetry record
(payloads rendered at the wire level). -/
def to_record (e : ValidationError) : ValidationErrorRecord :=
  { code := e.code.value,
    field := e.field,
    expected := match e.expected with
      | .str s => .str s
      | .list xs => .arr (xs.map Json.str),
    received := match e.received with
      | .str s => .str s
      | .list xs => .arr (xs.map Json.str),
    severity := e.severity.value }

/-- Outcome of one telemetry emission attempt, recorded in the run trace:
skipped (no writer or no generation id), written, or raised-and-suppressed. -/
inductive EmitOutcome where
  | skipped
  | ok
  | failed (msg : String)
deriving DecidableEq, Repr

/-- `RetryResult` dataclass from `akf/retry_controller.py`. -/
structure RetryResult where
  success : Bool
  document : String
  attempts : Nat
  abort_reason : Option String
  errors : List ValidationError
deriving DecidableEq, Repr

/-- `_check_convergence`: first new error whose `(field, code)` pair also
occurred in the previous error list yields the abort reason. -/
def check_convergence (previous_errors new_errors : List ValidationError) :
    Option String :=
  match new_errors.find?
      (fun e => decide ((e.field, e.code) ∈
        previous_errors.map fun x => (x.field, x.code))) with
  | some e => some ("convergence_failure: field=" ++ sq ++ e.field ++ sq ++
      " code=" ++ e.code.value ++ " failed on consecutive attempts")
  | none => none

/-- Fixed (per-run) collaborators and telemetry context of
`run_retry_loop`; the generation callback `g`, the validation callback
`v`, and the fingerprint function `hashFn` (SHA-256 in the source). -/
structure LoopCtx where
  g : String → String → String
  v : String → List ValidationError
  hashFn : String → String
  generationId : Option String
  documentId : Option String
  schemaVersion : String
  model : String
  temperature : ℚ
  topP : ℚ
  maxAttempts : Nat

/-- A telemetry writer: `write` may raise (`Except.error`). -/
def AttemptWriter := GenerationAttemptEvent → Except String Unit

/-- `_emit_attempt`: no-op when writer or generation id is absent;
otherwise builds the event and calls `write`, catching and suppressing any
raised error. Timing, uuid and timestamp are runtime inputs with no
influence on control flow, modelled as fixed values. -/
def emit_attempt (ctx : LoopCtx) (writer : Option AttemptWriter)
    (attempt : Nat) (is_final_attempt converged : Bool)
    (errors : List ValidationError) : EmitOutcome :=
  match writer, ctx.generationId with
  | some w, some gid =>
    let ev : GenerationAttemptEvent :=
      { generation_id := gid,
        document_id := ctx.documentId.getD "unknown",
        schema_version := ctx.schemaVersion,
        attempt := (attempt : Int),
        max_attempts := (ctx.maxAttempts : Int),
        is_final_attempt := is_final_attempt,
        converged := converged,
        errors := errors.map to_record,
        model := ctx.model,
        temperature := ctx.temperature,
        top_p := ctx.topP,
        duration_ms := 0,
        event_id := "",
        timestamp := "" }
    match w ev with
    | .ok _ => .ok
    | .error m => .failed m
  | _, _ => .skipped

/-- Observable trace of one `run_retry_loop` invocation: the returned
`RetryResult`, the arguments of every generation call, the arguments of
every validation call, and the telemetry emission outcomes. -/
structure LoopOut where
  result : RetryResult
  genCalls : List (String × String)
  valCalls : List String
  emits : List EmitOutcome
deriving DecidableEq, Repr

/-- One-to-one embedding of the `for attempt in range(1, max_attempts+1)`
loop of `run_retry_loop`: `fuel` is the number of iterations left,
`attempt` the 1-based index of the current one, `seen` the set of
fingerprints seen so far (a list, used only through membership), and
`curDoc` / `curErrors` the loop state. -/
def run_retry_loop_aux (ctx : LoopCtx) (writer : Option AttemptWriter) :
    Nat → Nat → List String → String → List ValidationError → LoopOut
  | _attempt, 0, _seen, curDoc, curErrors =>
    -- exhausted all attempts
    { result := { success := false, document := curDoc,
                  attempts := ctx.maxAttempts,
                  abort_reason := some ("max_attempts_reached: failed after " ++
                    toString ctx.maxAttempts ++ " retries"),
                  errors := curErrors },
      genCalls := [], valCalls := [], emits := [] }
  | attempt, fuel + 1, seen, curDoc, curErrors =>
    let payload := normalize_errors curErrors
    if ¬ payload.has_blocking_errors then
      { result := { success := true, document := curDoc, attempts := attempt - 1,
                    abort_reason := none, errors := [] },
        genCalls := [], valCalls := [], emits := [] }
    else
      let retry_prompt := payload.to_prompt_text
      let new_doc := ctx.g curDoc retry_prompt
      -- hash check FIRST — detect identical regeneration
      let doc_hash := ctx.hashFn new_doc
      if doc_hash ∈ seen then
        let em := emit_attempt ctx writer attempt true false curErrors
        { result := { success := false, document := new_doc, attempts := attempt,
                      abort_reason :=
                        some "identical_output: LLM returned same document twice",
                      errors := curErrors },
          genCalls := [(curDoc, retry_prompt)], valCalls := [], emits := [em] }
      else
        let seen' := doc_hash :: seen
        let new_errors := ctx.v new_doc
        let blocking := new_errors.filter isBlocking
        if blocking.isEmpty then
          let em := emit_attempt ctx writer attempt true true []
          { result := { success := true, document := new_doc, attempts := attempt,
                        abort_reason := none,
                        errors := new_errors },  -- may contain warnings
            genCalls := [(curDoc, retry_prompt)], valCalls := [new_doc],
            emits := [em] }
        else
          let abort_reason := check_convergence curErrors blocking
          let is_final := abort_reason.isSome || decide (attempt = ctx.maxAttempts)
          let em := emit_attempt ctx writer attempt is_final false blocking
          match abort_reason with
          | some reason =>
            { result := { success := false, document := new_doc, attempts := attempt,
                          abort_reason := some reason, errors := blocking },
              genCalls := [(curDoc, retry_prompt)], valCalls := [new_doc],
              emits := [em] }
          | none =>
            let rest := run_retry_loop_aux ctx writer (attempt + 1) fuel seen' new_doc blocking
            { result := rest.result,
              genCalls := (curDoc, retry_prompt) :: rest.genCalls,
              valCalls := new_doc :: rest.valCalls,
              emits := em :: rest.emits }

/-- `run_retry_loop` from `akf/retry_controller.py`: starts at attempt 1
with an empty fingerprint set. -/
def run_retry_loop (ctx : LoopCtx) (writer : Option AttemptWriter)
    (document : String) (errors : List ValidationError) : LoopOut :=
  run_retry_loop_aux ctx writer 1 ctx.maxAttempts [] document errors

/-- Filesystem model: a partial map from paths to file contents.
Directories (`mkdir(parents=True, exist_ok=True)`) are not modelled. -/
def Fs := String → Option String

/-- Create or overwrite a file. -/
def Fs.write (fs : Fs) (p c : String) : Fs :=
  fun q => if q = p then some c else fs q

/-- Remove a file (`os.unlink`; no-op here when absent, matching the
suppressed `OSError` of the cleanup path). -/
def Fs.remove (fs : Fs) (p : String) : Fs :=
  fun q => if q = p then none else fs q

/-- Result of `_atomic_write`: `ok = false` means a step before the final
rename raised and the exception propagates. -/
structure WriteOut where
  ok : Bool
  fs : Fs

/-- `_atomic_write` from `akf/commit_gate.py`: `mkstemp` creates a fresh
temporary file `tmpName` in the destination directory, the content is
written to it (`writeFails` is the oracle for an I/O failure of that
step), and `os.replace` renames it onto `target` as the final step; on a
failure before the rename the `except` branch unlinks the temporary file
and re-raises. -/
def atomic_write (fs : Fs) (target tmpName content : String)
    (writeFails : Bool) : WriteOut :=
  let fs1 := fs.write tmpName ""          -- mkstemp creates the temp file
  if writeFails then
    { ok := false, fs := fs1.remove tmpName }
  else
    let fs2 := fs1.write tmpName content  -- f.write(content)
    -- os.replace: atomic rename of the temp file onto the target
    { ok := true, fs := (fs2.write target content).remove tmpName }

/-- `CommitResult` dataclass from `akf/commit_gate.py`. -/
structure CommitResult where
  committed : Bool
  path : Option String
  blocking_errors : List ValidationError
  schema_version : String
deriving DecidableEq, Repr

/-- Python `str.strip(c)`: remove leading and trailing occurrences of a
single character. -/
def stripChar (c : Char) (s : String) : String :=
  String.mk (((s.data.dropWhile (fun x => x == c)).reverse.dropWhile
    (fun x => x == c)).reverse)

/-- Python `str.strip()`: remove leading and trailing whitespace
(Unicode whitespace classes beyond ASCII are not modelled). -/
def pyStrip (s : String) : String :=
  String.mk (((s.data.dropWhile Char.isWhitespace).reverse.dropWhile
    Char.isWhitespace).reverse)

/-- Split a character list on newline characters. -/
def splitLinesChars : List Char → List Char → List String
  | [], acc => [String.mk acc.reverse]
  | c :: rest, acc =>
    if c = (Char.ofNat 10) then String.mk acc.reverse :: splitLinesChars rest []
    else splitLinesChars rest (c :: acc)

/-- Python `str.splitlines` for newline-separated text. -/
def splitLines (s : String) : List String := splitLinesChars s.data []

/-- `stripped.split(":", 1)[1]` for a string containing a colon: everything
after the first colon. -/
def afterFirstColon (s : String) : String :=
  String.mk ((s.data.dropWhile (fun ch => !(ch == ':'))).drop 1)

/-- Line scanner of `_extract_field`: walks the lines with their index,
tracking whether the frontmatter block has been entered. -/
def extract_field_go (pfx : String) : List String → Bool → Nat → Option String
  | [], _, _ => none
  | line :: rest, in_frontmatter, i =>
    let stripped := pyStrip line
    if i = 0 ∧ stripped = "---" then
      extract_field_go pfx rest true (i + 1)
    else if in_frontmatter ∧ stripped = "---" then
      none  -- closing marker: break
    else if in_frontmatter ∧ pfx.data.isPrefixOf stripped.data then
      let value := stripChar (Char.ofNat 39)
        (stripChar (Char.ofNat 34) (pyStrip (afterFirstColon stripped)))
      if value = "" then none else some value
    else
      extract_field_go pfx rest in_frontmatter (i + 1)

/-- `_extract_field` from `akf/commit_gate.py` (Python `splitlines` is
modelled as splitting on a newline character). -/
def extract_field (document field_name : String) : Option String :=
  extract_field_go (field_name ++ ":") (splitLines document) false 0

/-- `_extract_schema_version`. -/
def extract_schema_version (document : String) : Option String :=
  extract_field document "schema_version"

/-- `_check_schema_version` from `akf/commit_gate.py`. -/
def check_schema_version (document expected : String) : Option ValidationError :=
  match extract_schema_version document with
  | none => some (schema_violation "schema_version" (.str expected) (.str "absent"))
  | some actual =>
    if actual ≠ expected then
      some (schema_violation "schema_version" (.str expected) (.str actual))
    else
      none

/-- A summary-event telemetry writer: `write` may raise. -/
def SummaryWriter := GenerationSummaryEvent → Except String Unit

/-- `_emit_summary` from `akf/commit_gate.py`: no-op when writer or
generation id is absent; otherwise builds the event and calls `write`,
catching and suppressing any raised error. -/
def emit_summary (writer : Option SummaryWriter) (generationId : Option String)
    (documentId : Option String) (schemaVersion : String) (totalAttempts : Int)
    (converged : Bool) (abortReason : Option String)
    (rejectedCandidates : List String) (finalDomain : Option String)
    (model : String) (temperature : ℚ) (totalDurationMs : Int) : EmitOutcome :=
  match writer, generationId with
  | some w, some gid =>
    let ev : GenerationSummaryEvent :=
      { generation_id := gid,
        document_id := documentId.getD "unknown",
        schema_version := schemaVersion,
        total_attempts := totalAttempts,
        converged := converged,
        abort_reason := abortReason,
        rejected_candidates := rejectedCandidates,
        final_domain := finalDomain,
        model := model,
        temperature := temperature,
        total_duration_ms := totalDurationMs,
        event_id := "",
        timestamp := "" }
    match w ev with
    | .ok _ => .ok
    | .error m => .failed m
  | _, _ => .skipped

/-- Observable outcome of a `commit` call: `outcome = none` means the
atomic write raised and the exception propagates to the caller. -/
structure CommitOut where
  outcome : Option CommitResult
  fs : Fs
  emits : List EmitOutcome

/-- `commit` from `akf/commit_gate.py`: (1) reject on blocking errors in
the supplied list, (2) enforce `schema_version` immutability, (3) atomic
write, (4) emit exactly one summary event for whichever outcome occurred
(none when the write raises, since the exception propagates before the
emission point). `tmpName` is the fresh name chosen by `mkstemp` and
`writeFails` the I/O-failure oracle of the write step. -/
def commit (document outputPath : String) (errors : List ValidationError)
    (expectedSchemaVersion : String) (writer : Option SummaryWriter)
    (generationId documentId : Option String) (schemaVersion : Option String)
    (totalAttempts : Int) (rejectedCandidates : List String) (model : String)
    (temperature : ℚ) (totalDurationMs : Int)
    (fs : Fs) (tmpName : String) (writeFails : Bool) : CommitOut :=
  -- `schema_version or expected_schema_version` (empty string is falsy)
  let schemaVer := match schemaVersion with
    | some s => if s = "" then expectedSchemaVersion else s
    | none => expectedSchemaVersion
  -- 1. check for blocking errors
  let blocking := errors.filter isBlocking
  if ¬ blocking.isEmpty then
    let em := emit_summary writer generationId documentId schemaVer totalAttempts
      false (some "blocking_errors") rejectedCandidates none model temperature
      totalDurationMs
    { outcome := some { committed := false, path := none,
                        blocking_errors := blocking,
                        schema_version := expectedSchemaVersion },
      fs := fs, emits := [em] }
  else
    -- 2. enforce schema_version immutability
    match check_schema_version document expectedSchemaVersion with
    | some version_error =>
      let em := emit_summary writer generationId documentId schemaVer totalAttempts
        false (some "schema_version_mismatch") rejectedCandidates none model
        temperature totalDurationMs
      { outcome := some { committed := false, path := none,
                          blocking_errors := [version_error],
                          schema_version := expectedSchemaVersion },
        fs := fs, emits := [em] }
    | none =>
      -- 3. atomic write
      let w := atomic_write fs outputPath tmpName document writeFails
      if ¬ w.ok then
        { outcome := none, fs := w.fs, emits := [] }
      else
        -- 4. emit summary — success
        let final_domain := extract_field document "domain"
        let em := emit_summary writer generationId documentId schemaVer
          totalAttempts true none rejectedCandidates final_domain model
          temperature totalDurationMs
        { outcome := some { committed := true, path := some outputPath,
                            blocking_errors := [],
                            schema_version := expectedSchemaVersion },
          fs := w.fs, emits := [em] }

/-- A `datetime.date` value. -/
structure PyDate where
  year : Nat
  month : Nat
  day : Nat
deriving DecidableEq, Repr

/-- Python date ordering (`<`): lexicographic on (year, month, day). -/
def PyDate.before (a b : PyDate) : Bool :=
  decide (a.year < b.year ∨ (a.year = b.year ∧
    (a.month < b.month ∨ (a.month = b.month ∧ a.day < b.day))))

/-- Zero-pad to two digits. -/
def pad2 (n : Nat) : String :=
  if n < 10 then "0" ++ toString n else toString n

/-- Zero-pad to four digits. -/
def pad4 (n : Nat) : String :=
  if n < 10 then "000" ++ toString n
  else if n < 100 then "00" ++ toString n
  else if n < 1000 then "0" ++ toString n
  else toString n

/-- Python `str(datetime.date)`: ISO `YYYY-MM-DD`. -/
def PyDate.iso (d : PyDate) : String :=
  pad4 d.year ++ "-" ++ pad2 d.month ++ "-" ++ pad2 d.day

/-- `DATE_PATTERN = ^\d{4}-\d{2}-\d{2}$` (the `\d` class is modelled as
ASCII digits). -/
def date_pattern_match (s : String) : Bool :=
  match s.data with
  | [y1, y2, y3, y4, h1, m1, m2, h2, d1, d2] =>
    y1.isDigit && y2.isDigit && y3.isDigit && y4.isDigit && (h1 == '-') &&
    m1.isDigit && m2.isDigit && (h2 == '-') && d1.isDigit && d2.isDigit
  | _ => false

/-- Numeric value of a digit string. -/
def digitsVal (cs : List Char) : Nat :=
  cs.foldl (fun acc c => acc * 10 + (c.toNat - 48)) 0

/-- Gregorian leap year, as `calendar`/`datetime` define it. -/
def isLeap (y : Nat) : Bool :=
  decide (y % 4 = 0 ∧ (y % 100 ≠ 0 ∨ y % 400 = 0))

/-- Days in a month. -/
def daysInMonth (y m : Nat) : Nat :=
  if m = 2 then (if isLeap y then 29 else 28)
  else if m = 4 ∨ m = 6 ∨ m = 9 ∨ m = 11 then 30
  else 31

/-- `datetime.date.fromisoformat` on a string already matching the
`YYYY-MM-DD` pattern: rejects out-of-range components (month 1–12, day
within the month, year at least `MINYEAR = 1`). -/
def date_fromisoformat (s : String) : Option PyDate :=
  match s.data with
  | [y1, y2, y3, y4, _, m1, m2, _, d1, d2] =>
    let y := digitsVal [y1, y2, y3, y4]
    let m := digitsVal [m1, m2]
    let d := digitsVal [d1, d2]
    if 1 ≤ y ∧ 1 ≤ m ∧ m ≤ 12 ∧ 1 ≤ d ∧ d ≤ daysInMonth y m then
      some { year := y, month := m, day := d }
    else none
  | _ => none

/-- A metadata value as produced by the YAML parser for a date field:
either a native `datetime.date` (PyYAML auto-parses unquoted dates), a
string, or any other scalar whose `str(value)` rendering is recorded. -/
inductive MetaVal where
  | date (d : PyDate)
  | str (s : String)
  | other (s : String)
deriving DecidableEq, Repr

/-- `str(value)` for a metadata value that is not a native date. -/
def MetaVal.pyStr : MetaVal → String
  | .date d => d.iso
  | .str s => s
  | .other s => s

/-- First-match association lookup (`metadata.get(field_name)`). -/
def lookupMeta : List (String × MetaVal) → String → Option MetaVal
  | [], _ => none
  | (k, v) :: rest, key => if k = key then some v else lookupMeta rest key

/-- Per-field resolution step of `_check_dates`: absent field resolves to
`none` with no error; a native date resolves directly; a string must match
the ISO pattern and parse, else an `invalid_date_format` error is recorded
and the field resolves to `none`. -/
def resolve_date_field (metadata : List (String × MetaVal)) (field_name : String) :
    List ValidationError × Option PyDate :=
  match lookupMeta metadata field_name with
  | none => ([], none)
  | some (MetaVal.date d) => ([], some d)
  | some v =>
    let s := v.pyStr
    if ¬ date_pattern_match s then
      ([invalid_date_format field_name s], none)
    else
      match date_fromisoformat s with
      | some d => ([], some d)
      | none => ([invalid_date_format field_name s], none)

/-- `_check_dates` from `akf/validator.py`: format checks for `created`
and `updated`, then the cross-field `created ≤ updated` constraint, which
only fires when both fields resolved to dates. Note the error appended by
the cross-field branch is constructed with `ErrorCode.SCHEMA_VIOLATION`. -/
def check_dates (metadata : List (String × MetaVal)) : List ValidationError :=
  let r1 := resolve_date_field metadata "created"
  let r2 := resolve_date_field metadata "updated"
  let errors := r1.1 ++ r2.1
  match r1.2, r2.2 with
  | some c, some u =>
    if u.before c then
      errors ++ [{ code := ErrorCode.SCHEMA_VIOLATION,
                   field := "created/updated",
                   expected := .str ("created (" ++ c.iso ++ ") ≤ updated (" ++
                     u.iso ++ ")"),
                   received := .str ("created (" ++ c.iso ++ ") > updated (" ++
                     u.iso ++ ")"),
                   severity := Severity.error }]
    else errors
  | _, _ => errors

/-- First-match key lookup in a JSON object member list. -/
def jlookup : List (String × Json) → String → Option Json
  | [], _ => none
  | (k, v) :: rest, key => if k = key then some v else jlookup rest key

/-- Extract a JSON string. -/
def Json.asStr : Json → Option String
  | .str s => some s
  | _ => none

/-- Extract a JSON integer. -/
def Json.asInt : Json → Option Int
  | .int n => some n
  | _ => none

/-- Extract a JSON boolean. -/
def Json.asBool : Json → Option Bool
  | .bool b => some b
  | _ => none

/-- Extract a JSON (non-integer) number. -/
def Json.asNum : Json → Option ℚ
  | .num q => some q
  | _ => none

/-- Extract a nullable JSON string. -/
def Json.asStrOrNull : Json → Option (Option String)
  | .null => some none
  | .str s => some (some s)
  | _ => none

/-- Modelled from the spec: the repository serializes telemetry events to
the JSON-lines wire format but contains no parser for it, so the reverse
direction of the spec's round-trip property (§8, "serializing … and
parsing it back") is modelled here from the wire format in §6: each field
of a `ValidationErrorRecord` is read back from its documented key. -/
def ValidationErrorRecord.ofDict (j : Json) : Option ValidationErrorRecord :=
  match j with
  | .obj ms => do
    let code ← (jlookup ms "code").bind Json.asStr
    let field ← (jlookup ms "field").bind Json.asStr
    let expected ← jlookup ms "expected"
    let received ← jlookup ms "received"
    let severity ← (jlookup ms "severity").bind Json.asStr
    pure { code := code, field := field, expected := expected,
           received := received, severity := severity }
  | _ => none

/-- Parse a JSON array of error records. -/
def recordsOfJson : List Json → Option (List ValidationErrorRecord)
  | [] => some []
  | j :: rest => do
    let r ← ValidationErrorRecord.ofDict j
    let rs ← recordsOfJson rest
    pure (r :: rs)

/-- Parse a JSON array of strings. -/
def stringsOfJson : List Json → Option (List String)
  | [] => some []
  | .str s :: rest => do
    let ss ← stringsOfJson rest
    pure (s :: ss)
  | _ => none

/-- Modelled from the spec: parser for the `AttemptEvent` wire object of
§6 (`event_type:"generation_attempt"`), reading every documented field
back; the repository itself has no such parser. -/
def GenerationAttemptEvent.ofDict (j : Json) : Option GenerationAttemptEvent :=
  match j with
  | .obj ms => do
    let et ← (jlookup ms "event_type").bind Json.asStr
    if et = "generation_attempt" then do
      let event_id ← (jlookup ms "event_id").bind Json.asStr
      let generation_id ← (jlookup ms "generation_id").bind Json.asStr
      let document_id ← (jlookup ms "document_id").bind Json.asStr
      let schema_version ← (jlookup ms "schema_version").bind Json.asStr
      let attempt ← (jlookup ms "attempt").bind Json.asInt
      let max_attempts ← (jlookup ms "max_attempts").bind Json.asInt
      let is_final_attempt ← (jlookup ms "is_final_attempt").bind Json.asBool
      let converged ← (jlookup ms "converged").bind Json.asBool
      let errorsJson ← jlookup ms "errors"
      let errors ← match errorsJson with
        | .arr xs => recordsOfJson xs
        | _ => none
      let model ← (jlookup ms "model").bind Json.asStr
      let temperature ← (jlookup ms "temperature").bind Json.asNum
      let top_p ← (jlookup ms "top_p").bind Json.asNum
      let timestamp ← (jlookup ms "timestamp").bind Json.asStr
      let duration_ms ← (jlookup ms "duration_ms").bind Json.asInt
      pure { generation_id := generation_id, document_id := document_id,
             schema_version := schema_version, attempt := attempt,
             max_attempts := max_attempts, is_final_attempt := is_final_attempt,
             converged := converged, errors := errors, model := model,
             temperature := temperature, top_p := top_p,
             duration_ms := duration_ms, event_id := event_id,
             timestamp := timestamp }
    else none
  | _ => none

/-- Modelled from the spec: parser for the `SummaryEvent` wire object of
§6 (`event_type:"generation_summary"`); the repository itself has no such
parser. -/
def GenerationSummaryEvent.ofDict (j : Json) : Option GenerationSummaryEvent :=
  match j with
  | .obj ms => do
    let et ← (jlookup ms "event_type").bind Json.asStr
    if et = "generation_summary" then do
      let event_id ← (jlookup ms "event_id").bind Json.asStr
      let generation_id ← (jlookup ms "generation_id").bind Json.asStr
      let document_id ← (jlookup ms "document_id").bind Json.asStr
      let schema_version ← (jlookup ms "schema_version").bind Json.asStr
      let total_attempts ← (jlookup ms "total_attempts").bind Json.asInt
      let converged ← (jlookup ms "converged").bind Json.asBool
      let abort_reason ← (jlookup ms "abort_reason").bind Json.asStrOrNull
      let rejectedJson ← jlookup ms "rejected_candidates"
      let rejected_candidates ← match rejectedJson with
        | .arr xs => stringsOfJson xs
        | _ => none
      let final_domain ← (jlookup ms "final_domain").bind Json.asStrOrNull
      let model ← (jlookup ms "model").bind Json.asStr
      let temperature ← (jlookup ms "temperature").bind Json.asNum
      let timestamp ← (jlookup ms "timestamp").bind Json.asStr
      let total_duration_ms ← (jlookup ms "total_duration_ms").bind Json.asInt
      pure { generation_id := generation_id, document_id := document_id,
             schema_version := schema_version, total_attempts := total_attempts,
             converged := converged, abort_reason := abort_reason,
             rejected_candidates := rejected_candidates,
             final_domain := final_domain, model := model,
             temperature := temperature,
             total_duration_ms := total_duration_ms, event_id := event_id,
             timestamp := timestamp }
    else none
  | _ => none

/-! ## Helper lemmas -/

/-- The normalizer reports blocking errors exactly when the blocking
filter of its input is nonempty. -/
theorem has_blocking_iff (l : List ValidationError) :
    (normalize_errors l).has_blocking_errors = true ↔ l.filter isBlocking ≠ [] := by
  simp [normalize_errors, List.length_pos]

/-- Filtering for blocking errors is idempotent. -/
theorem filter_isBlocking_idem (l : List ValidationError) :
    (l.filter isBlocking).filter isBlocking = l.filter isBlocking := by
  rw [List.filter_filter]
  simp

/-- A list with no blocking errors consists exactly of its warnings. -/
theorem filter_warning_of_no_blocking (l : List ValidationError)
    (h : l.filter isBlocking = []) :
    l.filter (fun e => decide (e.severity = Severity.warning)) = l := by
  induction l with
  | nil => rfl
  | cons e rest ih =>
    rw [List.filter_cons] at h ⊢
    by_cases hs : e.severity = Severity.error
    · simp [isBlocking, hs] at h
    · have hw : e.severity = Severity.warning := by
        cases h' : e.severity
        · exact absurd h' hs
        · rfl
      have h' : rest.filter isBlocking = [] := by
        simpa [isBlocking, hs] using h
      simp [hw, ih h']

/-! ## Step lemmas for the retry loop -/

/-- Zero-attempt exit: no blocking errors at the top of an iteration. -/
theorem aux_step_no_blocking (ctx : LoopCtx) (writer : Option AttemptWriter)
    (attempt fuel : Nat) (seen : List String) (curDoc : String)
    (curErrors : List ValidationError)
    (h : (normalize_errors curErrors).has_blocking_errors = false) :
    run_retry_loop_aux ctx writer attempt (fuel + 1) seen curDoc curErrors =
      { result := { success := true, document := curDoc, attempts := attempt - 1,
                    abort_reason := none, errors := [] },
        genCalls := [], valCalls := [], emits := [] } := by
  simp [run_retry_loop_aux, h]

/-- Identical-output abort: the fingerprint of the generated document was
already seen; validation is not invoked. -/
theorem aux_step_identical (ctx : LoopCtx) (writer : Option AttemptWriter)
    (attempt fuel : Nat) (seen : List String) (curDoc : String)
    (curErrors : List ValidationError)
    (hb : (normalize_errors curErrors).has_blocking_errors = true)
    (hh : ctx.hashFn (ctx.g curDoc (normalize_errors curErrors).to_prompt_text) ∈ seen) :
    run_retry_loop_aux ctx writer attempt (fuel + 1) seen curDoc curErrors =
      { result := { success := false,
                    document := ctx.g curDoc (normalize_errors curErrors).to_prompt_text,
                    attempts := attempt,
                    abort_reason :=
                      some "identical_output: LLM returned same document twice",
                    errors := curErrors },
        genCalls := [(curDoc, (normalize_errors curErrors).to_prompt_text)],
        valCalls := [],
        emits := [emit_attempt ctx writer attempt true false curErrors] } := by
  simp [run_retry_loop_aux, hb, hh]

/-- Successful-validation exit: the new document has no blocking errors. -/
theorem aux_step_success (ctx : LoopCtx) (writer : Option AttemptWriter)
    (attempt fuel : Nat) (seen : List String) (curDoc : String)
    (curErrors : List ValidationError)
    (hb : (normalize_errors curErrors).has_blocking_errors = true)
    (hh : ctx.hashFn (ctx.g curDoc (normalize_errors curErrors).to_prompt_text) ∉ seen)
    (hv : (ctx.v (ctx.g curDoc (normalize_errors curErrors).to_prompt_text)).filter
      isBlocking = []) :
    run_retry_loop_aux ctx writer attempt (fuel + 1) seen curDoc curErrors =
      { result := { success := true,
                    document := ctx.g curDoc (normalize_errors curErrors).to_prompt_text,
                    attempts := attempt,
                    abort_reason := none,
                    errors := ctx.v (ctx.g curDoc (normalize_errors curErrors).to_prompt_text) },
        genCalls := [(curDoc, (normalize_errors curErrors).to_prompt_text)],
        valCalls := [ctx.g curDoc (normalize_errors curErrors).to_prompt_text],
        emits := [emit_attempt ctx writer attempt true true []] } := by
  simp [run_retry_loop_aux, hb, hh, hv]

/-- Convergence abort: the new blocking set repeats a `(field, code)` pair
of the current error set. -/
theorem aux_step_convergence (ctx : LoopCtx) (writer : Option AttemptWriter)
    (attempt fuel : Nat) (seen : List String) (curDoc : String)
    (curErrors : List ValidationError) (reason : String)
    (hb : (normalize_errors curErrors).has_blocking_errors = true)
    (hh : ctx.hashFn (ctx.g curDoc (normalize_errors curErrors).to_prompt_text) ∉ seen)
    (hv : (ctx.v (ctx.g curDoc (normalize_errors curErrors).to_prompt_text)).filter
      isBlocking ≠ [])
    (hc : check_convergence curErrors
      ((ctx.v (ctx.g curDoc (normalize_errors curErrors).to_prompt_text)).filter
        isBlocking) = some reason) :
    run_retry_loop_aux ctx writer attempt (fuel + 1) seen curDoc curErrors =
      { result := { success := false,
                    document := ctx.g curDoc (normalize_errors curErrors).to_prompt_text,
                    attempts := attempt,
                    abort_reason := some reason,
                    errors := (ctx.v (ctx.g curDoc
                      (normalize_errors curErrors).to_prompt_text)).filter isBlocking },
        genCalls := [(curDoc, (normalize_errors curErrors).to_prompt_text)],
        valCalls := [ctx.g curDoc (normalize_errors curErrors).to_prompt_text],
        emits := [emit_attempt ctx writer attempt
          ((check_convergence curErrors ((ctx.v (ctx.g curDoc
            (normalize_errors curErrors).to_prompt_text)).filter isBlocking)).isSome
            || decide (attempt = ctx.maxAttempts)) false
          ((ctx.v (ctx.g curDoc (normalize_errors curErrors).to_prompt_text)).filter
            isBlocking)] } := by
  simp [run_retry_loop_aux, hb, hh, hv, hc]

/-- Continuation step: blocking errors remain and no abort condition
fired; the loop recurses with the new document and its blocking set. -/
theorem aux_step_continue (ctx : LoopCtx) (writer : Option AttemptWriter)
    (attempt fuel : Nat) (seen : List String) (curDoc : String)
    (curErrors : List ValidationError)
    (hb : (normalize_errors curErrors).has_blocking_errors = true)
    (hh : ctx.hashFn (ctx.g curDoc (normalize_errors curErrors).to_prompt_text) ∉ seen)
    (hv : (ctx.v (ctx.g curDoc (normalize_errors curErrors).to_prompt_text)).filter
      isBlocking ≠ [])
    (hc : check_convergence curErrors
      ((ctx.v (ctx.g curDoc (normalize_errors curErrors).to_prompt_text)).filter
        isBlocking) = none) :
    run_retry_loop_aux ctx writer attempt (fuel + 1) seen curDoc curErrors =
      { result := (run_retry_loop_aux ctx writer (attempt + 1) fuel
          (ctx.hashFn (ctx.g curDoc (normalize_errors curErrors).to_prompt_text) :: seen)
          (ctx.g curDoc (normalize_errors curErrors).to_prompt_text)
          ((ctx.v (ctx.g curDoc (normalize_errors curErrors).to_prompt_text)).filter
            isBlocking)).result,
        genCalls := (curDoc, (normalize_errors curErrors).to_prompt_text) ::
          (run_retry_loop_aux ctx writer (attempt + 1) fuel
            (ctx.hashFn (ctx.g curDoc (normalize_errors curErrors).to_prompt_text) :: seen)
            (ctx.g curDoc (normalize_errors curErrors).to_prompt_text)
            ((ctx.v (ctx.g curDoc (normalize_errors curErrors).to_prompt_text)).filter
              isBlocking)).genCalls,
        valCalls := ctx.g curDoc (normalize_errors curErrors).to_prompt_text ::
          (run_retry_loop_aux ctx writer (attempt + 1) fuel
            (ctx.hashFn (ctx.g curDoc (normalize_errors curErrors).to_prompt_text) :: seen)
            (ctx.g curDoc (normalize_errors curErrors).to_prompt_text)
            ((ctx.v (ctx.g curDoc (normalize_errors curErrors).to_prompt_text)).filter
              isBlocking)).valCalls,
        emits := emit_attempt ctx writer attempt (decide (attempt = ctx.maxAttempts))
          false ((ctx.v (ctx.g curDoc (normalize_errors curErrors).to_prompt_text)).filter
            isBlocking) ::
          (run_retry_loop_aux ctx writer (attempt + 1) fuel
            (ctx.hashFn (ctx.g curDoc (normalize_errors curErrors).to_prompt_text) :: seen)
            (ctx.g curDoc (normalize_errors curErrors).to_prompt_text)
            ((ctx.v (ctx.g curDoc (normalize_errors curErrors).to_prompt_text)).filter
              isBlocking)).emits } := by
  simp [run_retry_loop_aux, hb, hh, hv, hc]

/-! ## Abort-message discrimination -/

/-- Two strings with different head characters differ. -/
theorem ne_of_data_head_ne {s t : String} {c : Char}
    (hs : s.data.head? = some c) (ht : ¬ t.data.head? = some c) : s ≠ t := by
  intro h
  rw [h] at hs
  exact ht hs

/-- Every convergence-failure message differs from the identical-output
message. -/
theorem convergence_msg_ne_identical (rest : String) :
    ("convergence_failure: field=" ++ rest) ≠
      "identical_output: LLM returned same document twice" := by
  refine ne_of_data_head_ne (c := 'c') ?_ (by decide)
  rfl

/-- Every max-attempts message differs from the identical-output message. -/
theorem max_attempts_msg_ne_identical (rest : String) :
    ("max_attempts_reached: failed after " ++ rest) ≠
      "identical_output: LLM returned same document twice" := by
  refine ne_of_data_head_ne (c := 'm') ?_ (by decide)
  rfl

/-- Shape of a successful convergence check: the reason names the first
new error whose `(field, code)` pair repeats. -/
theorem check_convergence_some_shape (previous new : List ValidationError)
    (r : String) (h : check_convergence previous new = some r) :
    ∃ e, e ∈ new ∧
      (e.field, e.code) ∈ previous.map (fun x => (x.field, x.code)) ∧
      r = "convergence_failure: field=" ++ (sq ++ e.field ++ sq ++ " code=" ++
        e.code.value ++ " failed on consecutive attempts") := by
  unfold check_convergence at h
  cases hf : new.find?
      (fun e => decide ((e.field, e.code) ∈ previous.map fun x => (x.field, x.code))) with
  | none => rw [hf] at h; exact absurd h (by simp)
  | some e =>
    rw [hf] at h
    refine ⟨e, List.mem_of_find?_eq_some hf, ?_, ?_⟩
    · simpa using List.find?_some hf
    · simpa using h.symm

/-- The convergence check succeeds exactly on the first repeated pair. -/
theorem check_convergence_eq_some_of_find (previous new : List ValidationError)
    (e : ValidationError)
    (hf : new.find?
      (fun e => decide ((e.field, e.code) ∈ previous.map fun x => (x.field, x.code)))
      = some e) :
    check_convergence previous new =
      some ("convergence_failure: field=" ++ sq ++ e.field ++ sq ++ " code=" ++
        e.code.value ++ " failed on consecutive attempts") := by
  unfold check_convergence
  rw [hf]

/-! ## Concrete fixtures for witnesses -/

/-- Identity fingerprint used by concrete instances (the claims depend
only on the fingerprint being a function of the document). -/
def idHash : String → String := fun s => s

/-- Concrete loop context with the default telemetry parameters of the
source (`schema_version="1.0.0"`, `model="unknown"`, `temperature=0`,
`top_p=1`). -/
def mkCtx (g : String → String → String) (v : String → List ValidationError)
    (maxAttempts : Nat) : LoopCtx :=
  { g := g, v := v, hashFn := idHash, generationId := none, documentId := none,
    schemaVersion := "1.0.0", model := "unknown", temperature := 0, topP := 1,
    maxAttempts := maxAttempts }

/-- A blocking error on `title`. -/
def errB : ValidationError := missing_field "title"

/-- A blocking error on `type`, with a different `(field, code)` key. -/
def errB2 : ValidationError := invalid_enum "type" ["concept"] (.str "bogus")

/-- A warning-severity advisory error. -/
def errW : ValidationError :=
  { code := .TYPE_MISMATCH, field := "tags", expected := .str "list with >= 3 items",
    received := .str "list with 2 items", severity := .warning }

/-! ## Claim C4 -/

/-- C4: for every document and every initial error list with zero
blocking (error-severity) errors, `run_retry_loop` returns success with
`attempts = 0` and makes zero generation calls (assuming the attempt
budget admits at least one iteration, as the default `max_attempts = 3`
does). -/
theorem retry_no_blocking_zero_attempts (ctx : LoopCtx)
    (writer : Option AttemptWriter) (document : String)
    (errors : List ValidationError)
    (hmax : 1 ≤ ctx.maxAttempts)
    (hnb : errors.filter isBlocking = []) :
    (run_retry_loop ctx writer document errors).result.success = true ∧
    (run_retry_loop ctx writer document errors).result.attempts = 0 ∧
    (run_retry_loop ctx writer document errors).genCalls = [] := by
  obtain ⟨k, hk⟩ : ∃ k, ctx.maxAttempts = k + 1 := ⟨ctx.maxAttempts - 1, by omega⟩
  have hb : (normalize_errors errors).has_blocking_errors = false := by
    simp [normalize_errors, hnb]
  rw [run_retry_loop, hk, aux_step_no_blocking ctx writer 1 k [] document errors hb]
  exact ⟨rfl, rfl, rfl⟩

/-- Witness for C4 at a concrete warning-only error list. -/
theorem retry_no_blocking_zero_attempts_witness :
    (run_retry_loop (mkCtx (fun d _ => d) (fun _ => []) 3) none "doc" [errW]).result.success
      = true ∧
    (run_retry_loop (mkCtx (fun d _ => d) (fun _ => []) 3) none "doc" [errW]).result.attempts
      = 0 ∧
    (run_retry_loop (mkCtx (fun d _ => d) (fun _ => []) 3) none "doc" [errW]).genCalls
      = [] :=
  retry_no_blocking_zero_attempts (mkCtx (fun d _ => d) (fun _ => []) 3) none "doc"
    [errW] (by decide) (by decide)

/-! ## Claim C2 -/

/-- C2: if the generation callback returns the same text on the two
consecutive calls of one run (the second call echoing the first call's
output), the controller aborts with `identical_output` and `attempts = 2`
— before invoking validation on the repeated text (`valCalls = [d1]`),
hence regardless of what validation would say about it. -/
theorem retry_identical_output_aborts (ctx : LoopCtx)
    (writer : Option AttemptWriter) (document : String)
    (errors : List ValidationError) (d1 : String) (B1 : List ValidationError)
    (hd1 : d1 = ctx.g document (normalize_errors errors).to_prompt_text)
    (hB1 : B1 = (ctx.v d1).filter isBlocking)
    (hmax : 2 ≤ ctx.maxAttempts)
    (hblock : (normalize_errors errors).has_blocking_errors = true)
    (hB1ne : B1 ≠ [])
    (hconv : check_convergence errors B1 = none)
    (hsame : ctx.g d1 (normalize_errors B1).to_prompt_text = d1) :
    (run_retry_loop ctx writer document errors).result =
      { success := false, document := d1, attempts := 2,
        abort_reason := some "identical_output: LLM returned same document twice",
        errors := B1 } ∧
    (run_retry_loop ctx writer document errors).valCalls = [d1] := by
  subst hd1
  subst hB1
  obtain ⟨k, hk⟩ : ∃ k, ctx.maxAttempts = k + 1 + 1 := ⟨ctx.maxAttempts - 2, by omega⟩
  have hblock2 : (normalize_errors ((ctx.v (ctx.g document
      (normalize_errors errors).to_prompt_text)).filter isBlocking)).has_blocking_errors
      = true := by
    rw [has_blocking_iff, filter_isBlocking_idem]
    exact hB1ne
  have hmem : ctx.hashFn (ctx.g (ctx.g document (normalize_errors errors).to_prompt_text)
      (normalize_errors ((ctx.v (ctx.g document
        (normalize_errors errors).to_prompt_text)).filter isBlocking)).to_prompt_text) ∈
      [ctx.hashFn (ctx.g document (normalize_errors errors).to_prompt_text)] := by
    rw [hsame]
    exact List.mem_singleton.mpr rfl
  rw [run_retry_loop, hk,
    aux_step_continue ctx writer 1 (k + 1) [] document errors hblock
      (List.not_mem_nil _) hB1ne hconv,
    aux_step_identical ctx writer (1 + 1) k _ _ _ hblock2 hmem, hsame]
  exact ⟨rfl, rfl⟩

/-- Witness for C2: a generator constant at `"X"` aborts on its second
call with `identical_output` at `attempts = 2`. -/
theorem retry_identical_output_aborts_witness :
    (run_retry_loop (mkCtx (fun _ _ => "X") (fun _ => [errB2]) 3) none "doc"
      [errB]).result =
      { success := false, document := "X", attempts := 2,
        abort_reason := some "identical_output: LLM returned same document twice",
        errors := [errB2] } ∧
    (run_retry_loop (mkCtx (fun _ _ => "X") (fun _ => [errB2]) 3) none "doc"
      [errB]).valCalls = ["X"] :=
  retry_identical_output_aborts (mkCtx (fun _ _ => "X") (fun _ => [errB2]) 3) none
    "doc" [errB] "X" [errB2] rfl (by decide) (by decide) (by decide) (by decide)
    (by decide) rfl

/-! ## Claim C3 -/

/-- C3: at any loop iteration (where the current error set is the
previous attempt's blocking set, or the caller's initial set at attempt
1), if the newly validated blocking set repeats a `(field, code)` pair of
the current set, the controller aborts at that attempt with a
`convergence_failure` reason naming that field and code. -/
theorem retry_convergence_failure_aborts (ctx : LoopCtx)
    (writer : Option AttemptWriter) (attempt fuel : Nat) (seen : List String)
    (curDoc : String) (curErrors : List ValidationError)
    (hb : (normalize_errors curErrors).has_blocking_errors = true)
    (hh : ctx.hashFn (ctx.g curDoc (normalize_errors curErrors).to_prompt_text) ∉ seen)
    (hshared : ∃ e ∈ (ctx.v (ctx.g curDoc
        (normalize_errors curErrors).to_prompt_text)).filter isBlocking,
      (e.field, e.code) ∈ curErrors.map (fun x => (x.field, x.code))) :
    ∃ e ∈ (ctx.v (ctx.g curDoc
        (normalize_errors curErrors).to_prompt_text)).filter isBlocking,
      (e.field, e.code) ∈ curErrors.map (fun x => (x.field, x.code)) ∧
      (run_retry_loop_aux ctx writer attempt (fuel + 1) seen curDoc curErrors).result =
        { success := false,
          document := ctx.g curDoc (normalize_errors curErrors).to_prompt_text,
          attempts := attempt,
          abort_reason := some ("convergence_failure: field=" ++ sq ++ e.field ++ sq ++
            " code=" ++ e.code.value ++ " failed on consecutive attempts"),
          errors := (ctx.v (ctx.g curDoc
            (normalize_errors curErrors).to_prompt_text)).filter isBlocking } := by
  obtain ⟨e0, he0, hk0⟩ := hshared
  have hfind : ((ctx.v (ctx.g curDoc
      (normalize_errors curErrors).to_prompt_text)).filter isBlocking).find?
      (fun e => decide ((e.field, e.code) ∈
        curErrors.map fun x => (x.field, x.code))) |>.isSome := by
    rw [List.find?_isSome]
    exact ⟨e0, he0, by simpa using hk0⟩
  obtain ⟨e, hfe⟩ := Option.isSome_iff_exists.mp hfind
  have hmemE := List.mem_of_find?_eq_some hfe
  have hkeyE : (e.field, e.code) ∈ curErrors.map fun x => (x.field, x.code) := by
    simpa using List.find?_some hfe
  have hvne : (ctx.v (ctx.g curDoc
      (normalize_errors curErrors).to_prompt_text)).filter isBlocking ≠ [] :=
    List.ne_nil_of_mem hmemE
  refine ⟨e, hmemE, hkeyE, ?_⟩
  rw [aux_step_convergence ctx writer attempt fuel seen curDoc curErrors _ hb hh hvne
    (check_convergence_eq_some_of_find curErrors _ e hfe)]

/-- Witness for C3: a run whose attempts 1 and 2 both fail on the same
`(type, invalid-enum)` pair aborts with a convergence failure at
attempt 2. -/
theorem retry_convergence_failure_aborts_witness :
    ∃ e ∈ ((mkCtx (fun d _ => d ++ "X") (fun _ => [errB2]) 3).v
        ((mkCtx (fun d _ => d ++ "X") (fun _ => [errB2]) 3).g "docX"
          (normalize_errors [errB2]).to_prompt_text)).filter isBlocking,
      (e.field, e.code) ∈ [errB2].map (fun x => (x.field, x.code)) ∧
      (run_retry_loop_aux (mkCtx (fun d _ => d ++ "X") (fun _ => [errB2]) 3) none
        2 (1 + 1) ["docX"] "docX" [errB2]).result =
        { success := false,
          document := (mkCtx (fun d _ => d ++ "X") (fun _ => [errB2]) 3).g "docX"
            (normalize_errors [errB2]).to_prompt_text,
          attempts := 2,
          abort_reason := some ("convergence_failure: field=" ++ sq ++ e.field ++ sq ++
            " code=" ++ e.code.value ++ " failed on consecutive attempts"),
          errors := ((mkCtx (fun d _ => d ++ "X") (fun _ => [errB2]) 3).v
            ((mkCtx (fun d _ => d ++ "X") (fun _ => [errB2]) 3).g "docX"
              (normalize_errors [errB2]).to_prompt_text)).filter isBlocking } := by
  have h := retry_convergence_failure_aborts
    (mkCtx (fun d _ => d ++ "X") (fun _ => [errB2]) 3) none 2 1 ["docX"] "docX"
    [errB2] (by decide) (by decide) ⟨errB2, by decide, by decide⟩
  simpa using h

/-! ## Claim C7 (corrected) -/

/-- Counterexample to C7 as stated: a zero-attempt success (no blocking
errors up front) returns an empty error list even though the
warning-severity residue of the document's validation is nonempty — the
initial warning is discarded, not carried. -/
theorem retry_zero_attempt_discards_warnings :
    (run_retry_loop (mkCtx (fun d _ => d) (fun _ => [errW]) 3) none "doc"
      [errW]).result.success = true ∧
    (run_retry_loop (mkCtx (fun d _ => d) (fun _ => [errW]) 3) none "doc"
      [errW]).result.document = "doc" ∧
    (mkCtx (fun d _ => d) (fun _ => [errW]) 3).v "doc" = [errW] ∧
    (run_retry_loop (mkCtx (fun d _ => d) (fun _ => [errW]) 3) none "doc"
      [errW]).result.errors = [] ∧
    ((mkCtx (fun d _ => d) (fun _ => [errW]) 3).v "doc").filter
      (fun e => decide (e.severity = Severity.warning)) = [errW] := by
  decide

/-- Loop invariant for the amended C7: provided the current error set at
any attempt after the first is a nonempty blocking set (as it is in every
real run), a successful exit that made at least one generation call
returns exactly the warning residue of the last validation of the
returned document. -/
theorem aux_success_errors_are_warnings (ctx : LoopCtx)
    (writer : Option AttemptWriter) :
    ∀ (fuel attempt : Nat) (seen : List String) (curDoc : String)
      (curErrors : List ValidationError),
    (1 < attempt → curErrors.filter isBlocking ≠ []) →
    (run_retry_loop_aux ctx writer attempt fuel seen curDoc curErrors).result.success
      = true →
    1 ≤ (run_retry_loop_aux ctx writer attempt fuel seen curDoc curErrors).result.attempts →
    (run_retry_loop_aux ctx writer attempt fuel seen curDoc curErrors).result.errors =
      (ctx.v (run_retry_loop_aux ctx writer attempt fuel seen curDoc
        curErrors).result.document).filter
        (fun e => decide (e.severity = Severity.warning)) := by
  intro fuel
  induction fuel with
  | zero =>
    intro attempt seen curDoc curErrors _ hsucc _
    simp [run_retry_loop_aux] at hsucc
  | succ fuel ih =>
    intro attempt seen curDoc curErrors hinv hsucc hatt
    by_cases hb : (normalize_errors curErrors).has_blocking_errors = true
    · by_cases hh : ctx.hashFn (ctx.g curDoc
          (normalize_errors curErrors).to_prompt_text) ∈ seen
      · rw [aux_step_identical ctx writer attempt fuel seen curDoc curErrors hb hh]
          at hsucc
        simp at hsucc
      · by_cases hv : (ctx.v (ctx.g curDoc
            (normalize_errors curErrors).to_prompt_text)).filter isBlocking = []
        · rw [aux_step_success ctx writer attempt fuel seen curDoc curErrors hb hh hv]
          exact (filter_warning_of_no_blocking _ hv).symm
        · cases hc : check_convergence curErrors ((ctx.v (ctx.g curDoc
              (normalize_errors curErrors).to_prompt_text)).filter isBlocking) with
          | some r =>
            rw [aux_step_convergence ctx writer attempt fuel seen curDoc curErrors r
              hb hh hv hc] at hsucc
            simp at hsucc
          | none =>
            rw [aux_step_continue ctx writer attempt fuel seen curDoc curErrors
              hb hh hv hc] at hsucc hatt ⊢
            refine ih (attempt + 1) _ _ _ (fun _ => ?_) hsucc hatt
            rw [filter_isBlocking_idem]
            exact hv
    · rw [Bool.not_eq_true] at hb
      rw [aux_step_no_blocking ctx writer attempt fuel seen curDoc curErrors hb]
        at hsucc hatt ⊢
      exfalso
      have h2 : 1 < attempt := by
        have : 1 ≤ attempt - 1 := hatt
        omega
      have hfe : curErrors.filter isBlocking = [] := by
        by_contra hne
        have htrue := (has_blocking_iff curErrors).mpr hne
        rw [hb] at htrue
        exact Bool.false_ne_true htrue
      exact hinv h2 hfe

/-- C7 (amended): whenever `run_retry_loop` returns success after at
least one generation call, the returned error list equals exactly the
warning-severity errors of the last validation of the returned document;
the zero-attempt success shortcut instead returns an empty list,
discarding initial warnings (see the counterexample). -/
theorem retry_success_errors_are_last_warnings (ctx : LoopCtx)
    (writer : Option AttemptWriter) (document : String)
    (errors : List ValidationError)
    (hsucc : (run_retry_loop ctx writer document errors).result.success = true)
    (hatt : 1 ≤ (run_retry_loop ctx writer document errors).result.attempts) :
    (run_retry_loop ctx writer document errors).result.errors =
      (ctx.v (run_retry_loop ctx writer document errors).result.document).filter
        (fun e => decide (e.severity = Severity.warning)) :=
  aux_success_errors_are_warnings ctx writer ctx.maxAttempts 1 [] document errors
    (fun h => absurd h (by omega)) hsucc hatt

/-- Witness for the amended C7: a run that succeeds at attempt 1 carries
the residual warning of the final document's validation. -/
theorem retry_success_errors_are_last_warnings_witness :
    (run_retry_loop (mkCtx (fun _ _ => "fixed")
        (fun d => if d = "fixed" then [errW] else []) 3) none "bad"
      [errB]).result.errors =
      ((mkCtx (fun _ _ => "fixed") (fun d => if d = "fixed" then [errW] else []) 3).v
        (run_retry_loop (mkCtx (fun _ _ => "fixed")
          (fun d => if d = "fixed" then [errW] else []) 3) none "bad"
          [errB]).result.document).filter
        (fun e => decide (e.severity = Severity.warning)) :=
  retry_success_errors_are_last_warnings
    (mkCtx (fun _ _ => "fixed") (fun d => if d = "fixed" then [errW] else []) 3)
    none "bad" [errB] (by decide) (by decide)

/-! ## Claim C10 -/

/-- An identical-output abort reported by the loop starting at a given
attempt index carries an attempt count at least that index. -/
theorem aux_identical_attempts_ge (ctx : LoopCtx) (writer : Option AttemptWriter) :
    ∀ (fuel attempt : Nat) (seen : List String) (curDoc : String)
      (curErrors : List ValidationError),
    (run_retry_loop_aux ctx writer attempt fuel seen curDoc curErrors).result.abort_reason
      = some "identical_output: LLM returned same document twice" →
    attempt ≤ (run_retry_loop_aux ctx writer attempt fuel seen curDoc curErrors).result.attempts := by
  intro fuel
  induction fuel with
  | zero =>
    intro attempt seen curDoc curErrors h
    exfalso
    simp only [run_retry_loop_aux, Option.some.injEq] at h
    exact max_attempts_msg_ne_identical _ h
  | succ fuel ih =>
    intro attempt seen curDoc curErrors h
    by_cases hb : (normalize_errors curErrors).has_blocking_errors = true
    · by_cases hh : ctx.hashFn (ctx.g curDoc
          (normalize_errors curErrors).to_prompt_text) ∈ seen
      · rw [aux_step_identical ctx writer attempt fuel seen curDoc curErrors hb hh]
      · by_cases hv : (ctx.v (ctx.g curDoc
            (normalize_errors curErrors).to_prompt_text)).filter isBlocking = []
        · rw [aux_step_success ctx writer attempt fuel seen curDoc curErrors hb hh hv]
            at h
          simp at h
        · cases hc : check_convergence curErrors ((ctx.v (ctx.g curDoc
              (normalize_errors curErrors).to_prompt_text)).filter isBlocking) with
          | some r =>
            exfalso
            rw [aux_step_convergence ctx writer attempt fuel seen curDoc curErrors r
              hb hh hv hc] at h
            simp only [Option.some.injEq] at h
            obtain ⟨e, _, _, hr⟩ := check_convergence_some_shape _ _ _ hc
            rw [hr] at h
            exact convergence_msg_ne_identical _ h
          | none =>
            rw [aux_step_continue ctx writer attempt fuel seen curDoc curErrors
              hb hh hv hc] at h ⊢
            exact Nat.le_of_succ_le (ih (attempt + 1) _ _ _ h)
    · rw [Bool.not_eq_true] at hb
      rw [aux_step_no_blocking ctx writer attempt fuel seen curDoc curErrors hb] at h
      simp at h

/-- C10: only generated outputs are fingerprinted — the initial input
document is never in the seen set, so even when the first generation call
returns text identical to the input document, the first attempt is never
an `identical_output` abort and the returned text is validated. -/
theorem retry_first_attempt_not_identical (ctx : LoopCtx)
    (writer : Option AttemptWriter) (document : String)
    (errors : List ValidationError)
    (hmax : 1 ≤ ctx.maxAttempts)
    (hblock : (normalize_errors errors).has_blocking_errors = true)
    (hsame : ctx.g document (normalize_errors errors).to_prompt_text = document) :
    (∃ rest, (run_retry_loop ctx writer document errors).valCalls = document :: rest) ∧
    ((run_retry_loop ctx writer document errors).result.attempts = 1 →
      (run_retry_loop ctx writer document errors).result.abort_reason ≠
        some "identical_output: LLM returned same document twice") := by
  obtain ⟨k, hk⟩ : ∃ k, ctx.maxAttempts = k + 1 := ⟨ctx.maxAttempts - 1, by omega⟩
  rw [run_retry_loop, hk]
  by_cases hv : (ctx.v (ctx.g document
      (normalize_errors errors).to_prompt_text)).filter isBlocking = []
  · rw [aux_step_success ctx writer 1 k [] document errors hblock
      (List.not_mem_nil _) hv, hsame]
    exact ⟨⟨[], rfl⟩, fun _ => by simp⟩
  · cases hc : check_convergence errors ((ctx.v (ctx.g document
        (normalize_errors errors).to_prompt_text)).filter isBlocking) with
    | some r =>
      rw [aux_step_convergence ctx writer 1 k [] document errors r hblock
        (List.not_mem_nil _) hv hc, hsame]
      refine ⟨⟨[], rfl⟩, fun _ => ?_⟩
      obtain ⟨e, _, _, hr⟩ := check_convergence_some_shape _ _ _ hc
      rw [hr]
      intro hcontra
      exact convergence_msg_ne_identical _ (Option.some.inj hcontra)
    | none =>
      rw [aux_step_continue ctx writer 1 k [] document errors hblock
        (List.not_mem_nil _) hv hc, hsame]
      refine ⟨⟨_, rfl⟩, fun hatt hid => ?_⟩
      have hge : 1 + 1 ≤ (run_retry_loop_aux ctx writer (1 + 1) k
          [ctx.hashFn document] document
          ((ctx.v document).filter isBlocking)).result.attempts :=
        aux_identical_attempts_ge ctx writer k (1 + 1) [ctx.hashFn document]
          document ((ctx.v document).filter isBlocking) hid
      have heq : (run_retry_loop_aux ctx writer (1 + 1) k
          [ctx.hashFn document] document
          ((ctx.v document).filter isBlocking)).result.attempts = 1 := hatt
      omega

/-- Witness for C10: the generator echoes the input document on the first
call; the run validates it instead of aborting with `identical_output`. -/
theorem retry_first_attempt_not_identical_witness :
    (∃ rest, (run_retry_loop (mkCtx (fun d _ => d) (fun _ => [errB2]) 3) none "doc"
      [errB]).valCalls = "doc" :: rest) ∧
    ((run_retry_loop (mkCtx (fun d _ => d) (fun _ => [errB2]) 3) none "doc"
      [errB]).result.attempts = 1 →
      (run_retry_loop (mkCtx (fun d _ => d) (fun _ => [errB2]) 3) none "doc"
        [errB]).result.abort_reason ≠
        some "identical_output: LLM returned same document twice") :=
  retry_first_attempt_not_identical (mkCtx (fun d _ => d) (fun _ => [errB2]) 3)
    none "doc" [errB] (by decide) (by decide) rfl

/-! ## Claim C8 -/

/-- The retry loop's result and call traces are identical under any two
telemetry writers: only the recorded emission outcomes differ. -/
theorem aux_writer_independent (ctx : LoopCtx) (w1 w2 : Option AttemptWriter) :
    ∀ (fuel attempt : Nat) (seen : List String) (curDoc : String)
      (curErrors : List ValidationError),
    (run_retry_loop_aux ctx w1 attempt fuel seen curDoc curErrors).result =
      (run_retry_loop_aux ctx w2 attempt fuel seen curDoc curErrors).result ∧
    (run_retry_loop_aux ctx w1 attempt fuel seen curDoc curErrors).genCalls =
      (run_retry_loop_aux ctx w2 attempt fuel seen curDoc curErrors).genCalls ∧
    (run_retry_loop_aux ctx w1 attempt fuel seen curDoc curErrors).valCalls =
      (run_retry_loop_aux ctx w2 attempt fuel seen curDoc curErrors).valCalls := by
  intro fuel
  induction fuel with
  | zero =>
    intro attempt seen curDoc curErrors
    exact ⟨rfl, rfl, rfl⟩
  | succ fuel ih =>
    intro attempt seen curDoc curErrors
    by_cases hb : (normalize_errors curErrors).has_blocking_errors = true
    · by_cases hh : ctx.hashFn (ctx.g curDoc
          (normalize_errors curErrors).to_prompt_text) ∈ seen
      · rw [aux_step_identical ctx w1 attempt fuel seen curDoc curErrors hb hh,
          aux_step_identical ctx w2 attempt fuel seen curDoc curErrors hb hh]
        exact ⟨rfl, rfl, rfl⟩
      · by_cases hv : (ctx.v (ctx.g curDoc
            (normalize_errors curErrors).to_prompt_text)).filter isBlocking = []
        · rw [aux_step_success ctx w1 attempt fuel seen curDoc curErrors hb hh hv,
            aux_step_success ctx w2 attempt fuel seen curDoc curErrors hb hh hv]
          exact ⟨rfl, rfl, rfl⟩
        · cases hc : check_convergence curErrors ((ctx.v (ctx.g curDoc
              (normalize_errors curErrors).to_prompt_text)).filter isBlocking) with
          | some r =>
            rw [aux_step_convergence ctx w1 attempt fuel seen curDoc curErrors r
              hb hh hv hc,
              aux_step_convergence ctx w2 attempt fuel seen curDoc curErrors r
                hb hh hv hc]
            exact ⟨rfl, rfl, rfl⟩
          | none =>
            rw [aux_step_continue ctx w1 attempt fuel seen curDoc curErrors
              hb hh hv hc,
              aux_step_continue ctx w2 attempt fuel seen curDoc curErrors
                hb hh hv hc]
            obtain ⟨h1, h2, h3⟩ := ih (attempt + 1)
              (ctx.hashFn (ctx.g curDoc (normalize_errors curErrors).to_prompt_text)
                :: seen)
              (ctx.g curDoc (normalize_errors curErrors).to_prompt_text)
              ((ctx.v (ctx.g curDoc
                (normalize_errors curErrors).to_prompt_text)).filter isBlocking)
            exact ⟨h1, by simp only [h2], by simp only [h3]⟩
    · rw [Bool.not_eq_true] at hb
      rw [aux_step_no_blocking ctx w1 attempt fuel seen curDoc curErrors hb,
        aux_step_no_blocking ctx w2 attempt fuel seen curDoc curErrors hb]
      exact ⟨rfl, rfl, rfl⟩

/-- C8: telemetry never influences the pipeline outcome — with a writer
whose `write` raises arbitrarily, `run_retry_loop` returns exactly the
same result and makes exactly the same generation and validation calls as
with no writer at all; likewise `commit` returns the same outcome and
leaves the filesystem in the same state. Emission failures are caught and
discarded inside `_emit_attempt` / `_emit_summary`. -/
theorem telemetry_never_influences_outcome :
    (∀ (ctx : LoopCtx) (w : AttemptWriter) (document : String)
        (errors : List ValidationError),
      (run_retry_loop ctx (some w) document errors).result =
        (run_retry_loop ctx none document errors).result ∧
      (run_retry_loop ctx (some w) document errors).genCalls =
        (run_retry_loop ctx none document errors).genCalls ∧
      (run_retry_loop ctx (some w) document errors).valCalls =
        (run_retry_loop ctx none document errors).valCalls) ∧
    (∀ (document outputPath : String) (errors : List ValidationError)
        (expected : String) (w : SummaryWriter)
        (generationId documentId : Option String) (schemaVersion : Option String)
        (totalAttempts : Int) (rejectedCandidates : List String) (model : String)
        (temperature : ℚ) (totalDurationMs : Int) (fs : Fs) (tmpName : String)
        (writeFails : Bool),
      (commit document outputPath errors expected (some w) generationId documentId
        schemaVersion totalAttempts rejectedCandidates model temperature
        totalDurationMs fs tmpName writeFails).outcome =
        (commit document outputPath errors expected none generationId documentId
          schemaVersion totalAttempts rejectedCandidates model temperature
          totalDurationMs fs tmpName writeFails).outcome ∧
      (commit document outputPath errors expected (some w) generationId documentId
        schemaVersion totalAttempts rejectedCandidates model temperature
        totalDurationMs fs tmpName writeFails).fs =
        (commit document outputPath errors expected none generationId documentId
          schemaVersion totalAttempts rejectedCandidates model temperature
          totalDurationMs fs tmpName writeFails).fs) := by
  constructor
  · intro ctx w document errors
    exact aux_writer_independent ctx (some w) none ctx.maxAttempts 1 [] document errors
  · intro document outputPath errors expected w gid did sv ta rc model temp tdm
      fs tmpName wf
    unfold commit
    by_cases hbl : (errors.filter isBlocking).isEmpty = true
    · simp only [hbl]
      cases hcs : check_schema_version document expected with
      | some ve => simp
      | none =>
        simp only
        by_cases hwo : (atomic_write fs outputPath tmpName document wf).ok = true
        · simp [hwo]
        · simp [hwo]
    · simp [hbl]

/-! ## Claim C5 -/

/-- C5: when the supplied error list has no blocking errors (so the
version gate is reached) and the schema-version field extracted from the
document's header is absent or differs from the expected version, `commit`
rejects with a single structural schema-violation error citing the
expected and actual values, and the filesystem — hence the document and
its `schema_version` field — is left completely untouched. -/
theorem commit_schema_version_rejects (document outputPath : String)
    (errors : List ValidationError) (expected : String)
    (writer : Option SummaryWriter) (generationId documentId : Option String)
    (schemaVersion : Option String) (totalAttempts : Int)
    (rejectedCandidates : List String) (model : String) (temperature : ℚ)
    (totalDurationMs : Int) (fs : Fs) (tmpName : String) (writeFails : Bool)
    (hclean : errors.filter isBlocking = [])
    (hmismatch : extract_schema_version document ≠ some expected) :
    (commit document outputPath errors expected writer generationId documentId
      schemaVersion totalAttempts rejectedCandidates model temperature
      totalDurationMs fs tmpName writeFails).outcome =
      some { committed := false, path := none,
             blocking_errors := [schema_violation "schema_version" (.str expected)
               (.str ((extract_schema_version document).getD "absent"))],
             schema_version := expected } ∧
    (commit document outputPath errors expected writer generationId documentId
      schemaVersion totalAttempts rejectedCandidates model temperature
      totalDurationMs fs tmpName writeFails).fs = fs := by
  have hbl : (errors.filter isBlocking).isEmpty = true := by simp [hclean]
  have hcs : check_schema_version document expected =
      some (schema_violation "schema_version" (.str expected)
        (.str ((extract_schema_version document).getD "absent"))) := by
    unfold check_schema_version
    cases h : extract_schema_version document with
    | none => simp
    | some a =>
      have hne : a ≠ expected := fun he => hmismatch (by rw [h, he])
      simp [hne]
  unfold commit
  simp [hbl, hcs]

/-- Witness for C5 at a concrete mismatching document. -/
theorem commit_schema_version_rejects_witness :
    (commit "---\nschema_version: 2.0.0\n---\nbody" "out.md" [] "1.0.0" none none
      none none 1 [] "unknown" 0 0 (fun _ => none) ".akf_tmp_0.md" false).outcome =
      some { committed := false, path := none,
             blocking_errors := [schema_violation "schema_version" (.str "1.0.0")
               (.str ((extract_schema_version
                 "---\nschema_version: 2.0.0\n---\nbody").getD "absent"))],
             schema_version := "1.0.0" } ∧
    (commit "---\nschema_version: 2.0.0\n---\nbody" "out.md" [] "1.0.0" none none
      none none 1 [] "unknown" 0 0 (fun _ => none) ".akf_tmp_0.md" false).fs =
      (fun _ => none) :=
  commit_schema_version_rejects "---\nschema_version: 2.0.0\n---\nbody" "out.md"
    [] "1.0.0" none none none none 1 [] "unknown" 0 0 (fun _ => none)
    ".akf_tmp_0.md" false (by decide) (by decide)

/-! ## Claim C6 -/

/-- C6: `commit` never leaves the destination partially or wrongly
written. First, with any blocking error in the supplied list the
filesystem is untouched (the destination is never created or modified).
Second, when the gate checks pass but a step of the atomic-write sequence
fails before the final rename, the raised error propagates
(`outcome = none`), every path other than the temporary file — in
particular the destination — is untouched, and the temporary file is
removed. -/
theorem commit_never_partial_writes :
    (∀ (document outputPath : String) (errors : List ValidationError)
        (expected : String) (writer : Option SummaryWriter)
        (generationId documentId : Option String) (schemaVersion : Option String)
        (totalAttempts : Int) (rejectedCandidates : List String) (model : String)
        (temperature : ℚ) (totalDurationMs : Int) (fs : Fs) (tmpName : String)
        (writeFails : Bool),
      (∃ e ∈ errors, e.severity = Severity.error) →
      (commit document outputPath errors expected writer generationId documentId
        schemaVersion totalAttempts rejectedCandidates model temperature
        totalDurationMs fs tmpName writeFails).fs = fs) ∧
    (∀ (document outputPath : String) (errors : List ValidationError)
        (expected : String) (writer : Option SummaryWriter)
        (generationId documentId : Option String) (schemaVersion : Option String)
        (totalAttempts : Int) (rejectedCandidates : List String) (model : String)
        (temperature : ℚ) (totalDurationMs : Int) (fs : Fs) (tmpName : String),
      errors.filter isBlocking = [] →
      check_schema_version document expected = none →
      tmpName ≠ outputPath →
      (commit document outputPath errors expected writer generationId documentId
        schemaVersion totalAttempts rejectedCandidates model temperature
        totalDurationMs fs tmpName true).outcome = none ∧
      (∀ q, q ≠ tmpName →
        (commit document outputPath errors expected writer generationId documentId
          schemaVersion totalAttempts rejectedCandidates model temperature
          totalDurationMs fs tmpName true).fs q = fs q) ∧
      (commit document outputPath errors expected writer generationId documentId
        schemaVersion totalAttempts rejectedCandidates model temperature
        totalDurationMs fs tmpName true).fs tmpName = none) := by
  constructor
  · intro document outputPath errors expected writer gid did sv ta rc model temp
      tdm fs tmpName wf hex
    obtain ⟨e, he, hsev⟩ := hex
    have hmem : e ∈ errors.filter isBlocking :=
      List.mem_filter.mpr ⟨he, by simp [isBlocking, hsev]⟩
    have hbl : (errors.filter isBlocking).isEmpty = false := by
      cases hfe : errors.filter isBlocking with
      | nil => rw [hfe] at hmem; exact absurd hmem (List.not_mem_nil e)
      | cons x xs => rfl
    unfold commit
    simp [hbl]
  · intro document outputPath errors expected writer gid did sv ta rc model temp
      tdm fs tmpName hclean hcs hne
    have hbl : (errors.filter isBlocking).isEmpty = true := by simp [hclean]
    unfold commit
    simp only [hbl, hcs, not_true, Bool.not_eq_true, ite_false, if_neg,
      Bool.true_eq_false, not_false_eq_true, ite_true, if_pos]
    refine ⟨?_, ?_, ?_⟩
    · simp [atomic_write]
    · intro q hq
      simp [atomic_write, Fs.write, Fs.remove, hq]
    · simp [atomic_write, Fs.write, Fs.remove]

/-- Witness for C6: both parts applied at concrete inputs — a blocking
missing-field error leaves the filesystem untouched, and a failing write
step on a passing document propagates the error, leaves the destination
untouched and removes the temporary file. -/
theorem commit_never_partial_writes_witness :
    ((commit "doc" "out.md" [errB] "1.0.0" none none none none 1 [] "unknown" 0 0
      (fun _ => none) ".akf_tmp_0.md" false).fs = (fun _ => none)) ∧
    ((commit "---\nschema_version: 1.0.0\n---\nbody" "out.md" [] "1.0.0" none none
      none none 1 [] "unknown" 0 0 (fun _ => none) ".akf_tmp_0.md" true).outcome
        = none ∧
      (∀ q, q ≠ ".akf_tmp_0.md" →
        (commit "---\nschema_version: 1.0.0\n---\nbody" "out.md" [] "1.0.0" none
          none none none 1 [] "unknown" 0 0 (fun _ => none) ".akf_tmp_0.md"
          true).fs q = (fun _ => none : Fs) q) ∧
      (commit "---\nschema_version: 1.0.0\n---\nbody" "out.md" [] "1.0.0" none none
        none none 1 [] "unknown" 0 0 (fun _ => none) ".akf_tmp_0.md" true).fs
        ".akf_tmp_0.md" = none) :=
  ⟨commit_never_partial_writes.1 "doc" "out.md" [errB] "1.0.0" none none none none
      1 [] "unknown" 0 0 (fun _ => none) ".akf_tmp_0.md" false
      ⟨errB, by decide, by decide⟩,
    commit_never_partial_writes.2 "---\nschema_version: 1.0.0\n---\nbody" "out.md"
      [] "1.0.0" none none none none 1 [] "unknown" 0 0 (fun _ => none)
      ".akf_tmp_0.md" (by decide) (by decide) (by decide)⟩

/-! ## Claim C1 -/

/-- C1: on a header whose `created` and `updated` are both well-formed
dates with `created` after `updated`, `_check_dates` reports exactly one
error on the `created/updated` field with no date-format errors — but it
constructs that error with `ErrorCode.SCHEMA_VIOLATION` (the code of the
structural header check), not a distinct date-sequence code: the dedicated
`E007_DATE_SEQUENCE` code exists (carried by the unused
`date_sequence_violation` constructor) and the module's own docstring and
the repository test suite (`test_validator.py`,
`test_invalid_created_after_updated`) require it, so the code contradicts
its own documentation and tests here. -/
theorem check_dates_sequence_violation_uses_schema_code :
    (check_dates [("created", .str "2026-03-01"), ("updated", .str "2026-01-01")]).map
        (fun e => (e.code, e.field, e.severity)) =
      [(ErrorCode.SCHEMA_VIOLATION, "created/updated", Severity.error)] ∧
    ErrorCode.SCHEMA_VIOLATION ≠ ErrorCode.DATE_SEQUENCE ∧
    (date_sequence_violation "2026-03-01" "2026-01-01").code =
      ErrorCode.DATE_SEQUENCE ∧
    (check_dates [("created", .str "2026-03-01"), ("updated", .str "2026-01-01")]).filter
        (fun e => decide (e.code = ErrorCode.INVALID_DATE_FORMAT)) = [] := by
  decide

/-! ## Claim C9 -/

/-- Nullable strings round-trip through their JSON rendering. -/
theorem asStrOrNull_jsonOfOptStr (o : Option String) :
    Json.asStrOrNull (jsonOfOptStr o) = some o := by
  cases o <;> rfl

/-- A single error record round-trips through the wire format. -/
theorem record_roundtrip (r : ValidationErrorRecord) :
    ValidationErrorRecord.ofDict r.to_dict = some r := rfl

/-- A list of error records round-trips through the wire format. -/
theorem records_roundtrip (rs : List ValidationErrorRecord) :
    recordsOfJson (rs.map ValidationErrorRecord.to_dict) = some rs := by
  induction rs with
  | nil => rfl
  | cons r rest ih => simp [recordsOfJson, record_roundtrip, ih]

/-- A list of strings round-trips through the wire format. -/
theorem strings_roundtrip (xs : List String) :
    stringsOfJson (xs.map Json.str) = some xs := by
  induction xs with
  | nil => rfl
  | cons x rest ih => simp [stringsOfJson, ih]

/-- Every attempt event round-trips: parsing its serialized form yields
an object equal in all fields. -/
theorem attempt_event_roundtrip (ev : GenerationAttemptEvent) :
    GenerationAttemptEvent.ofDict ev.to_dict = some ev :=
  calc GenerationAttemptEvent.ofDict ev.to_dict
      = (recordsOfJson (ev.errors.map ValidationErrorRecord.to_dict)).bind
          (fun errs => some
            { generation_id := ev.generation_id, document_id := ev.document_id,
              schema_version := ev.schema_version, attempt := ev.attempt,
              max_attempts := ev.max_attempts,
              is_final_attempt := ev.is_final_attempt, converged := ev.converged,
              errors := errs, model := ev.model, temperature := ev.temperature,
              top_p := ev.top_p, duration_ms := ev.duration_ms,
              event_id := ev.event_id, timestamp := ev.timestamp }) := rfl
    _ = some ev := by rw [records_roundtrip]; rfl

/-- Every summary event round-trips: parsing its serialized form yields
an object equal in all fields. -/
theorem summary_event_roundtrip (ev : GenerationSummaryEvent) :
    GenerationSummaryEvent.ofDict ev.to_dict = some ev :=
  calc GenerationSummaryEvent.ofDict ev.to_dict
      = (Json.asStrOrNull (jsonOfOptStr ev.abort_reason)).bind (fun ar =>
          (stringsOfJson (ev.rejected_candidates.map Json.str)).bind (fun rcs =>
            (Json.asStrOrNull (jsonOfOptStr ev.final_domain)).bind (fun fd =>
              some { generation_id := ev.generation_id,
                     document_id := ev.document_id,
                     schema_version := ev.schema_version,
                     total_attempts := ev.total_attempts,
                     converged := ev.converged, abort_reason := ar,
                     rejected_candidates := rcs, final_domain := fd,
                     model := ev.model, temperature := ev.temperature,
                     total_duration_ms := ev.total_duration_ms,
                     event_id := ev.event_id, timestamp := ev.timestamp }))) := rfl
    _ = some ev := by
        simp only [asStrOrNull_jsonOfOptStr, strings_roundtrip, Option.some_bind]

/-- C9: serializing an `AttemptEvent` or `SummaryEvent` to the JSON-lines
wire format and parsing it back yields an object equal to the original in
all fields; in particular the nested error-record list of an attempt
event round-trips exactly (the parsing direction is modelled from the
spec's wire format, the repository shipping only the serializer). -/
theorem telemetry_events_roundtrip :
    (∀ ev : GenerationAttemptEvent,
      GenerationAttemptEvent.ofDict ev.to_dict = some ev) ∧
    (∀ ev : GenerationSummaryEvent,
      GenerationSummaryEvent.ofDict ev.to_dict = some ev) :=
  ⟨attempt_event_roundtrip, summary_event_roundtrip⟩

end AKF
